import Mathlib

/-!
Verification of the soundmesh build-configuration helper (`extra_script.py`).

The script reads the active PlatformIO environment name `env["PIOENV"]`,
selects a firmware variant by an if/elif/else chain, prints a status
message, and overwrites `src/CMakeLists.txt` with a generated manifest
`idf_component_register(SRCS "<source>")` surrounded by one blank line on
each side (the Python triple-quoted f-string begins and ends with a
newline).

The embedding below models:
  - the variant selection (`resolveVariant`), mirroring lines 7-15;
  - the manifest text (`cmakeContent`), mirroring lines 20-22;
  - the whole script run (`runScript`) over an explicit build-context
    association list and an explicit file system (association list from
    paths to contents), with the two fallible steps made explicit:
    the `env["PIOENV"]` subscript (KeyError when the key is absent) and
    the file write (the script installs no exception handler, so a failed
    open/write propagates; we model the failure mode with a Boolean oracle).
-/

/-- A resolved build variant: the chosen source file and the log message.
Mirrors the pair of assignments in each branch of the dispatch. -/
structure BuildVariant where
  source_path : String
  status_message : String
deriving DecidableEq, Repr

/-- The transmitter variant (lines 7-9 of the script). -/
def txVariant : BuildVariant := ⟨"tx/main.c", "Building TX firmware"⟩

/-- The combined variant (lines 10-12 of the script). -/
def comboVariant : BuildVariant := ⟨"combo/main.c", "Building COMBO firmware"⟩

/-- The receiver (default) variant (lines 13-15 of the script). -/
def rxVariant : BuildVariant := ⟨"rx/main.c", "Building RX firmware"⟩

/-- Variant selection: the if/elif/else chain on `pio_env` (lines 7-15).
String comparison in Python is exact equality, which `=` on `String` models. -/
def resolveVariant (pio_env : String) : BuildVariant :=
  if pio_env = "tx" then ⟨"tx/main.c", "Building TX firmware"⟩
  else if pio_env = "combo" then ⟨"combo/main.c", "Building COMBO firmware"⟩
  else ⟨"rx/main.c", "Building RX firmware"⟩

/-- The generated manifest text (lines 20-22): the Python f-string
is a newline, the `idf_component_register` directive, and a newline. -/
def cmakeContent (app_sources : String) : String :=
  "\nidf_component_register(SRCS \"" ++ app_sources ++ "\")\n"

/-- The fixed relative path of the output manifest (line 24). -/
def cmakeListsPath : String := "src/CMakeLists.txt"

/-- A file system: an association list from paths to file contents. -/
abbrev FS := List (String × String)

/-- Read a file: the content associated with `path`, if any. -/
def lookupFile (fs : FS) (path : String) : Option String :=
  (fs.find? (fun p => p.1 = path)).map Prod.snd

/-- Write a file in mode "w": the new content fully replaces any previous
content at `path`; other files are untouched. -/
def writeFile (fs : FS) (path content : String) : FS :=
  (path, content) :: fs.filter (fun p => p.1 ≠ path)

/-- Look up a key in the build-context association list, as the Python
subscript `env[key]` does before raising `KeyError` on a miss. -/
def envLookup (env : List (String × String)) (key : String) : Option String :=
  (env.find? (fun p => p.1 = key)).map Prod.snd

/-- The failures the script run can surface: a `KeyError` from the
`env["PIOENV"]` subscript, or a failed open/write of the manifest. -/
inductive ScriptError where
  | keyError : String → ScriptError
  | writeError : ScriptError
deriving DecidableEq, Repr

/-- What a run of the script leaves behind: the lines printed so far, the
file system, and the error that aborted the run, if any. -/
structure ScriptOutcome where
  printed : List String
  fs : FS
  error : Option ScriptError
deriving DecidableEq, Repr

/-- One run of `extra_script.py` over build context `env`, with
`writeSucceeds` the oracle for whether opening/writing the manifest
succeeds.  Steps in source order: the `env["PIOENV"]` subscript (line 4,
KeyError aborts before anything is printed or written), the variant
dispatch (lines 7-15), the print (line 17), and the manifest write
(lines 24-25); a failed write aborts the run after the print, leaving the
file system unchanged, since the script installs no exception handler. -/
def runScript (env : List (String × String)) (writeSucceeds : Bool) (fs : FS) :
    ScriptOutcome :=
  match envLookup env "PIOENV" with
  | none => ⟨[], fs, some (ScriptError.keyError "PIOENV")⟩
  | some pio_env =>
    let v := resolveVariant pio_env
    let content := cmakeContent v.source_path
    if writeSucceeds then
      ⟨[v.status_message], writeFile fs cmakeListsPath content, none⟩
    else
      ⟨[v.status_message], fs, some ScriptError.writeError⟩

/-! ### The variant table, as the spec describes it

The spec presents the dispatch as a closed ordered table with a designated
default: keys matched in declared order, first match wins, fall-through to
the default.  `tableResolve` is written from those words, to be compared
with `resolveVariant`, which is written from the source. -/

/-- The ordered variant table of the spec: recognized keys in declared
order, each with its configured variant. -/
def variantTable : List (String × BuildVariant) :=
  [("tx", txVariant), ("combo", comboVariant)]

/-- The designated default (receiver) entry of the table. -/
def defaultVariant : BuildVariant := rxVariant

/-- Resolution as the spec words it: match the identifier against the
table keys in declared order, first match wins, else the default. -/
def tableResolve (e : String) : BuildVariant :=
  ((variantTable.find? (fun p => p.1 = e)).map Prod.snd).getD defaultVariant

/-! ### Spec-side reading of "registered source files"

The manifest registers a source file by quoting its path inside the
`idf_component_register(SRCS ...)` directive.  `registeredSrcs` extracts
the quoted segments of a string: split at double-quote characters and keep
the segments that lie inside a pair of quotes. -/

/-- The double-quote character. -/
def quoteChar : Char := '\x22'

/-- Split a character list at double-quote characters. -/
def splitOnQuote : List Char → List (List Char)
  | [] => [[]]
  | c :: cs =>
      if c = quoteChar then [] :: splitOnQuote cs
      else
        match splitOnQuote cs with
        | [] => [[c]]
        | p :: ps => (c :: p) :: ps

/-- The elements at odd indices of a list. -/
def oddIdx : List α → List α
  | [] => []
  | [_] => []
  | _ :: b :: rest => b :: oddIdx rest

/-- The source paths a manifest registers: the segments of its text that
lie between an odd and the following even double-quote. -/
def registeredSrcs (content : String) : List String :=
  (oddIdx (splitOnQuote content.data)).map (fun cs => String.mk cs)

/-! ### Helper lemmas -/

/-- Reading back the file just written yields the new content. -/
theorem lookupFile_writeFile (fs : FS) (p c : String) :
    lookupFile (writeFile fs p c) p = some c := by
  simp [lookupFile, writeFile]

/-- Writing the same path twice keeps only the last content. -/
theorem writeFile_writeFile (fs : FS) (p c c2 : String) :
    writeFile (writeFile fs p c) p c2 = writeFile fs p c2 := by
  simp [writeFile, List.filter_filter]

/-- The resolver yields one of the three configured variants. -/
theorem resolveVariant_cases (e : String) :
    resolveVariant e = txVariant ∨ resolveVariant e = comboVariant ∨
      resolveVariant e = rxVariant := by
  unfold resolveVariant txVariant comboVariant rxVariant
  by_cases h1 : e = "tx" <;> by_cases h2 : e = "combo" <;> simp [h1, h2]

/-- A singleton build context resolves its own key. -/
theorem envLookup_single (e : String) :
    envLookup [("PIOENV", e)] "PIOENV" = some e := by
  simp [envLookup]

/-- Unfolding a successful run on a singleton build context. -/
theorem runScript_single (e : String) (fs : FS) :
    runScript [("PIOENV", e)] true fs =
      ⟨[(resolveVariant e).status_message],
        writeFile fs cmakeListsPath (cmakeContent (resolveVariant e).source_path),
        none⟩ := by
  simp [runScript, envLookup_single]

/-- The transmitter identifier resolves to the transmitter variant. -/
theorem resolveVariant_tx : resolveVariant "tx" = txVariant := by decide

/-- The combo identifier resolves to the combo variant. -/
theorem resolveVariant_combo : resolveVariant "combo" = comboVariant := by decide

/-- Any identifier other than the two recognized keys resolves to the
receiver default. -/
theorem resolveVariant_default (e : String) (h1 : e ≠ "tx") (h2 : e ≠ "combo") :
    resolveVariant e = rxVariant := by
  simp [resolveVariant, rxVariant, h1, h2]

/-! ### Claims -/

/-- C1: resolving "tx" yields source path "tx/main.c" with message
"Building TX firmware", and resolving "combo" yields "combo/main.c" with
"Building COMBO firmware"; running the script with either identifier
prints exactly that message and leaves a manifest whose sole registered
source is that source path. -/
theorem C1_recognized_variants (fs : FS) :
    resolveVariant "tx" = ⟨"tx/main.c", "Building TX firmware"⟩ ∧
    resolveVariant "combo" = ⟨"combo/main.c", "Building COMBO firmware"⟩ ∧
    (runScript [("PIOENV", "tx")] true fs).printed = ["Building TX firmware"] ∧
    lookupFile (runScript [("PIOENV", "tx")] true fs).fs cmakeListsPath =
      some (cmakeContent "tx/main.c") ∧
    registeredSrcs (cmakeContent "tx/main.c") = ["tx/main.c"] ∧
    (runScript [("PIOENV", "combo")] true fs).printed = ["Building COMBO firmware"] ∧
    lookupFile (runScript [("PIOENV", "combo")] true fs).fs cmakeListsPath =
      some (cmakeContent "combo/main.c") ∧
    registeredSrcs (cmakeContent "combo/main.c") = ["combo/main.c"] := by
  refine ⟨by decide, by decide, ?_, ?_, by decide, ?_, ?_, by decide⟩ <;>
    simp [runScript_single, lookupFile_writeFile, resolveVariant_tx,
      resolveVariant_combo, txVariant, comboVariant]

/-- C2: every identifier other than "tx" and "combo" (the empty string
included) resolves to the receiver default without any error: the run
completes with no error, prints "Building RX firmware", and writes the
rx/main.c manifest. -/
theorem C2_unrecognized_defaults (e : String) (fs : FS)
    (h1 : e ≠ "tx") (h2 : e ≠ "combo") :
    resolveVariant e = rxVariant ∧
    (runScript [("PIOENV", e)] true fs).error = none ∧
    (runScript [("PIOENV", e)] true fs).printed = ["Building RX firmware"] ∧
    lookupFile (runScript [("PIOENV", e)] true fs).fs cmakeListsPath =
      some (cmakeContent "rx/main.c") := by
  have hr := resolveVariant_default e h1 h2
  refine ⟨hr, ?_, ?_, ?_⟩ <;>
    simp [runScript_single, lookupFile_writeFile, hr, rxVariant]

/-- C2 witness: the empty identifier resolves to the receiver default. -/
theorem C2_unrecognized_defaults_witness :
    "" ≠ "tx" ∧ "" ≠ "combo" ∧
    (resolveVariant "" = rxVariant ∧
      (runScript [("PIOENV", "")] true []).error = none ∧
      (runScript [("PIOENV", "")] true []).printed = ["Building RX firmware"] ∧
      lookupFile (runScript [("PIOENV", "")] true []).fs cmakeListsPath =
        some (cmakeContent "rx/main.c")) :=
  ⟨by decide, by decide, C2_unrecognized_defaults "" [] (by decide) (by decide)⟩

/-- C3: for every identifier, the manifest after the run holds exactly the
generated content, and that content registers exactly one source file,
textually equal to the resolved source path. -/
theorem C3_manifest_registers_resolved (e : String) (fs : FS) :
    lookupFile (runScript [("PIOENV", e)] true fs).fs cmakeListsPath =
      some (cmakeContent (resolveVariant e).source_path) ∧
    registeredSrcs (cmakeContent (resolveVariant e).source_path) =
      [(resolveVariant e).source_path] := by
  constructor
  · simp [runScript_single, lookupFile_writeFile]
  · rcases resolveVariant_cases e with h | h | h <;> rw [h] <;> decide

/-- C4: for every identifier, the manifest content is exactly the single
directive idf_component_register(SRCS "<source_path>") for the resolved
source path, surrounded by one leading and one trailing newline — the only
deviation from the bare directive. -/
theorem C4_manifest_exact_shape (e : String) (fs : FS) :
    lookupFile (runScript [("PIOENV", e)] true fs).fs cmakeListsPath =
      some (cmakeContent (resolveVariant e).source_path) ∧
    (cmakeContent (resolveVariant e).source_path).data =
      '\n' :: (("idf_component_register(SRCS \"" ++
        (resolveVariant e).source_path ++ "\")").data ++ ['\n']) := by
  constructor
  · simp [runScript_single, lookupFile_writeFile]
  · rcases resolveVariant_cases e with h | h | h <;> rw [h] <;> decide

/-- C5: the run is deterministic in its inputs and idempotent: running the
script a second time on the file system the first run produced yields the
same printed output, the same error status, and a byte-identical file
system — in particular a byte-identical manifest. -/
theorem C5_deterministic_idempotent (env : List (String × String)) (w : Bool) (fs : FS) :
    runScript env w ((runScript env w fs).fs) = runScript env w fs := by
  cases h : envLookup env "PIOENV" with
  | none => simp [runScript, h]
  | some e => cases w <;> simp [runScript, h, writeFile_writeFile]

/-- C6: resolution agrees with the ordered three-entry table of the spec —
keys matched in declared order, first match wins, fall-through to the
receiver default — and always yields one of the three configured pairs. -/
theorem C6_closed_ordered_table (e : String) :
    resolveVariant e = tableResolve e ∧
    (resolveVariant e = txVariant ∨ resolveVariant e = comboVariant ∨
      resolveVariant e = rxVariant) := by
  refine ⟨?_, resolveVariant_cases e⟩
  by_cases h1 : e = "tx"
  · subst h1; decide
  · by_cases h2 : e = "combo"
    · subst h2; decide
    · simp [resolveVariant, tableResolve, variantTable, defaultVariant,
        rxVariant, h1, h2, Ne.symm h1, Ne.symm h2]

/-- C7: for every identifier the manifest is written at the fixed path
src/CMakeLists.txt with content fully determined by the resolved variant:
the file system after the run is exactly the old one with that path
overwritten, and the manifest content does not depend on the prior file
system. -/
theorem C7_fixed_path_overwrite (e : String) (fs fs2 : FS) :
    (runScript [("PIOENV", e)] true fs).fs =
      writeFile fs cmakeListsPath (cmakeContent (resolveVariant e).source_path) ∧
    lookupFile (runScript [("PIOENV", e)] true fs).fs cmakeListsPath =
      lookupFile (runScript [("PIOENV", e)] true fs2).fs cmakeListsPath := by
  simp [runScript_single, lookupFile_writeFile]

/-- C8: a failed manifest write surfaces as an error of the run — the
script installs no handler, so the failure propagates — leaving the file
system unchanged; and with the identifier present a successful write is
the error-free case, so the write is the only failure point once the
identifier is supplied. -/
theorem C8_write_failure_propagates (e : String) (fs : FS) :
    (runScript [("PIOENV", e)] false fs).error = some ScriptError.writeError ∧
    (runScript [("PIOENV", e)] false fs).fs = fs ∧
    (runScript [("PIOENV", e)] true fs).error = none := by
  refine ⟨?_, ?_, ?_⟩ <;> simp [runScript, envLookup_single]

/-- C9: matching is exact string equality, so any identifier that differs
from "tx" and from "combo" in any character — case variants and padded
variants included — resolves to the receiver default. -/
theorem C9_exact_matching (e : String) (h1 : e ≠ "tx") (h2 : e ≠ "combo") :
    resolveVariant e = ⟨"rx/main.c", "Building RX firmware"⟩ := by
  simp [resolveVariant, h1, h2]

/-- C9 witness: the upper-case variant "TX" falls through to the receiver
default rather than matching "tx". -/
theorem C9_exact_matching_witness :
    "TX" ≠ "tx" ∧
    resolveVariant "TX" = ⟨"rx/main.c", "Building RX firmware"⟩ :=
  ⟨by decide, C9_exact_matching "TX" (by decide) (by decide)⟩

/-- C10: when the build context has no PIOENV key, the run aborts with a
KeyError before printing anything and before touching the file system, so
any existing manifest is left unchanged and no default applies. -/
theorem C10_missing_pioenv (env : List (String × String)) (w : Bool) (fs : FS)
    (h : envLookup env "PIOENV" = none) :
    runScript env w fs = ⟨[], fs, some (ScriptError.keyError "PIOENV")⟩ := by
  simp [runScript, h]

/-- C10 witness: running with an empty build context aborts with the
KeyError outcome. -/
theorem C10_missing_pioenv_witness :
    envLookup [] "PIOENV" = none ∧
    runScript [] true [] = ⟨[], [], some (ScriptError.keyError "PIOENV")⟩ :=
  ⟨rfl, C10_missing_pioenv [] true [] rfl⟩
